import Mathlib

/-!
Shallow embedding of src/src/hooks/useObjectDetection.ts.

The hook orchestrates a frame-capture / inference-dispatch / result-delivery
loop.  We model its React state (detections, isProcessing), its refs
(workerRef, streamRef, intervalRef), and its operations (startDetection,
stopDetection, processFrame, the worker onmessage handler, the server fetch
completion, and the isProcessing effect) as pure functions on an explicit
session state.

Browser time (Date.now) is modelled as a monotone stream of Nat values,
one value per call site in source order; Math.random is modelled as a
stream of rationals in the interval from 0 inclusive to 1 exclusive.
Fractional scores and coordinates are rationals.  Timer handles returned
by setInterval are modelled as fresh Nat identifiers drawn from a counter,
and the set of timers currently running is tracked explicitly so that
claims about duplicate sampler loops can be stated.
-/

/-- Detection mode, from the DetectionMode type consumed by the hook:
the code branches on the string values wasm and server. -/
inductive DetectionMode where
  | wasm
  | server
  deriving Repr, DecidableEq

/-- One recognized object instance, as constructed by the hook
(lines 83-96 and 143-180 of useObjectDetection.ts): label, confidence
score, normalized bounding box, frame id and the three timestamps. -/
structure Detection where
  label : String
  score : ℚ
  xmin : ℚ
  ymin : ℚ
  xmax : ℚ
  ymax : ℚ
  frame_id : ℕ
  capture_ts : ℕ
  recv_ts : ℕ
  inference_ts : ℕ
  deriving Repr, DecidableEq

/-- The validity predicate of the spec for produced detections:
score in [0,1], xmin < xmax, ymin < ymax, all coordinates in [0,1],
and capture_ts ≤ recv_ts ≤ inference_ts. -/
def validDetection (d : Detection) : Prop :=
  0 ≤ d.score ∧ d.score ≤ 1 ∧
  d.xmin < d.xmax ∧ d.ymin < d.ymax ∧
  0 ≤ d.xmin ∧ d.xmin ≤ 1 ∧ 0 ≤ d.xmax ∧ d.xmax ≤ 1 ∧
  0 ≤ d.ymin ∧ d.ymin ≤ 1 ∧ 0 ≤ d.ymax ∧ d.ymax ≤ 1 ∧
  d.capture_ts ≤ d.recv_ts ∧ d.recv_ts ≤ d.inference_ts

instance (d : Detection) : Decidable (validDetection d) := by
  unfold validDetection
  infer_instance

/-- The three hard-coded test detections set by the isProcessing effect
(lines 143-180).  The stream t gives the successive Date.now() values, one
per call site in source evaluation order (four calls per object literal:
frame_id, capture_ts, recv_ts, inference_ts). -/
def testDetections (t : ℕ → ℕ) : List Detection :=
  [ { label := "person", score := 0.93,
      xmin := 0.1, ymin := 0.1, xmax := 0.4, ymax := 0.7,
      frame_id := t 0, capture_ts := t 1,
      recv_ts := t 2 + 10, inference_ts := t 3 + 25 },
    { label := "phone", score := 0.87,
      xmin := 0.5, ymin := 0.2, xmax := 0.7, ymax := 0.5,
      frame_id := t 4 + 1, capture_ts := t 5,
      recv_ts := t 6 + 8, inference_ts := t 7 + 20 },
    { label := "bottle", score := 0.76,
      xmin := 0.75, ymin := 0.3, xmax := 0.9, ymax := 0.8,
      frame_id := t 8 + 2, capture_ts := t 9,
      recv_ts := t 10 + 12, inference_ts := t 11 + 30 } ]

/-- The mock fallback detection list built in the catch branch of the
server path (lines 83-96).  r gives the successive Math.random() values
(five calls: score, xmin, ymin, xmax, ymax) and t the successive
Date.now() values (four calls: frame_id, capture_ts, recv_ts,
inference_ts), in source evaluation order. -/
def mockDetections (r : ℕ → ℚ) (t : ℕ → ℕ) : List Detection :=
  [ { label := "person",
      score := 0.80 + r 0 * 0.15,
      xmin := 0.15 + r 1 * 0.1,
      ymin := 0.1 + r 2 * 0.1,
      xmax := 0.4 + r 3 * 0.1,
      ymax := 0.8 + r 4 * 0.1,
      frame_id := t 0, capture_ts := t 1,
      recv_ts := t 2 + 5, inference_ts := t 3 + 35 } ]

/-- Math.random() returns values in [0, 1). -/
def randomBounded (r : ℕ → ℚ) : Prop := ∀ i, 0 ≤ r i ∧ r i < 1

/-- Pixel data read back from the off-screen canvas by getImageData:
the content drawn onto the canvas (the current video frame, identified
abstractly by a Nat) together with the read-back region dimensions. -/
structure ImageData where
  content : ℕ
  width : ℕ
  height : ℕ
  deriving Repr, DecidableEq

/-- Reading the canvas pixels after drawing video content v into a
canvas of the given dimensions (ctx.drawImage then ctx.getImageData). -/
def getImageData (v : ℕ) (w h : ℕ) : ImageData :=
  { content := v, width := w, height := h }

/-- The message posted to the WASM worker (lines 50-56): imageData plus
canvas width and height, a timestamp and a frameId. -/
structure WorkerRequest where
  imageData : ImageData
  width : ℕ
  height : ℕ
  timestamp : ℕ
  frameId : ℕ
  deriving Repr, DecidableEq

/-- The message received from the WASM worker (lines 18-21):
detections and a processing time. -/
structure WorkerResponse where
  detections : List Detection
  processingTime : ℕ
  deriving Repr, DecidableEq

/-- Error kinds a session start could report.  The spec names
InvalidStreamError; the type records whether the code ever produces it. -/
inductive SessionError where
  | invalidStream
  deriving Repr, DecidableEq

/-- Outcome of the fetch to the detection endpoint, as the code
discriminates it (lines 73-98): a 2xx response whose parsed JSON body may
or may not carry a detections field (result.detections or []), a non-2xx
response carrying its status, or a thrown transport error / timeout. -/
inductive ServerOutcome where
  | ok (detections : Option (List Detection))
  | httpError (status : ℕ)
  | transportError
  deriving Repr, DecidableEq

/-- The session state of the hook: the two React state cells
(detections, isProcessing), the three refs (workerRef as a Boolean
presence flag, streamRef as an optional stream handle id, intervalRef as
an optional timer id), plus explicit instrumentation of the effects the
claims are about: the set of interval timers currently running, a
fresh-timer counter, the number of off-screen canvases allocated so far,
the messages posted to the worker, and the number of server submissions
currently in flight. -/
structure SessionState where
  detections : List Detection
  isProcessing : Bool
  hasWorker : Bool
  stream : Option ℕ
  intervalHandle : Option ℕ
  activeTimers : List ℕ
  nextTimerId : ℕ
  canvasAllocs : ℕ
  workerMessages : List WorkerRequest
  inFlightServer : ℕ
  deriving Repr, DecidableEq

/-- The state of the hook right after mount: empty detections, not
processing, all refs null, nothing allocated, nothing in flight. -/
def initState : SessionState :=
  { detections := []
    isProcessing := false
    hasWorker := false
    stream := none
    intervalHandle := none
    activeTimers := []
    nextTimerId := 0
    canvasAllocs := 0
    workerMessages := []
    inFlightServer := 0 }

/-- The mode-dependent initialization effect (lines 12-23): in wasm mode
a worker is created and its onmessage handler installed; in server mode
nothing happens. -/
def initWorkerEffect (mode : DetectionMode) (s : SessionState) : SessionState :=
  if mode = DetectionMode.wasm then { s with hasWorker := true } else s

/-- startDetection (lines 102-124).  A null stream returns immediately
with no error reported (if (!stream) return).  Otherwise the stream ref
is set, isProcessing becomes true, and after the metadata await a new
interval timer is created and stored in intervalRef; the previous
interval, if any, is NOT cleared.  Returns the new state and the error
reported to the caller, which is always none because the code never
throws. -/
def startDetection (stream : Option ℕ) (s : SessionState) :
    SessionState × Option SessionError :=
  match stream with
  | none => (s, none)
  | some st =>
      let tid := s.nextTimerId
      ({ s with
          stream := some st
          isProcessing := true
          intervalHandle := some tid
          activeTimers := tid :: s.activeTimers
          nextTimerId := s.nextTimerId + 1 }, none)

/-- stopDetection (lines 126-137): isProcessing false, detections
cleared, stream ref nulled, and if an interval handle is present its
timer is cleared and the handle nulled. -/
def stopDetection (s : SessionState) : SessionState :=
  match s.intervalHandle with
  | some tid =>
      { s with isProcessing := false, detections := [], stream := none,
               activeTimers := s.activeTimers.erase tid, intervalHandle := none }
  | none =>
      { s with isProcessing := false, detections := [], stream := none }

/-- processFrame, synchronous part up to dispatch (lines 33-71).  The
entry guard returns unchanged when the video element is absent or
isProcessing is false.  Otherwise a NEW canvas is created
(document.createElement), sized 320 by 240; if getContext fails the call
returns after the allocation.  The current frame is drawn and its pixels
read back.  In wasm mode with a live worker the request message is
posted; in server mode a fetch is started, recorded here as one more
in-flight submission whose outcome is applied later by
completeServer.  t gives the Date.now() values used by the wasm branch
(timestamp then frameId, in source order). -/
def processFrame (mode : DetectionMode) (video : Option ℕ) (ctxOk : Bool)
    (t : ℕ → ℕ) (s : SessionState) : SessionState :=
  match video with
  | none => s
  | some v =>
    if !s.isProcessing then s
    else
      let s1 : SessionState := { s with canvasAllocs := s.canvasAllocs + 1 }
      if !ctxOk then s1
      else
        let imageData := getImageData v 320 240
        match mode with
        | DetectionMode.wasm =>
            if s1.hasWorker then
              { s1 with workerMessages := s1.workerMessages ++
                  [{ imageData := imageData, width := 320, height := 240,
                     timestamp := t 0, frameId := t 1 }] }
            else s1
        | DetectionMode.server =>
            { s1 with inFlightServer := s1.inFlightServer + 1 }

/-- Completion of one in-flight server submission (lines 73-98), applied
when the awaited fetch settles.  On a 2xx response the parsed detections
(or [] when the field is absent) are published; on a non-2xx response the
status is only logged and no state cell changes; on a transport error the
mock fallback detections are published.  r and t feed the Math.random()
and Date.now() calls of the fallback construction.  No branch consults
isProcessing and no branch throws. -/
def completeServer (outcome : ServerOutcome) (r : ℕ → ℚ) (t : ℕ → ℕ)
    (s : SessionState) : SessionState :=
  let s1 : SessionState := { s with inFlightServer := s.inFlightServer - 1 }
  match outcome with
  | ServerOutcome.ok dets => { s1 with detections := dets.getD [] }
  | ServerOutcome.httpError _ => s1
  | ServerOutcome.transportError => { s1 with detections := mockDetections r t }

/-- The worker onmessage handler (lines 18-22): publishes the detections
of the response unconditionally (the processing time is only logged). -/
def onWorkerMessage (resp : WorkerResponse) (s : SessionState) : SessionState :=
  { s with detections := resp.detections }

/-- The isProcessing effect (lines 140-187): when processing, the test
detections are published immediately; otherwise detections are cleared. -/
def processingEffect (t : ℕ → ℕ) (s : SessionState) : SessionState :=
  if s.isProcessing then { s with detections := testDetections t }
  else { s with detections := [] }

/-- C5: every Detection value constructed by the hook (the test detections
of the isProcessing effect and the mock fallback detections of the server
catch branch) satisfies the validity predicate: score in [0,1],
xmin < xmax, ymin < ymax, coordinates in [0,1], and monotone
timestamps, for any monotone clock and any Math.random values in [0,1). -/
theorem C5_produced_detections_valid (t : ℕ → ℕ) (r : ℕ → ℚ)
    (ht : Monotone t) (hr : randomBounded r) :
    (testDetections t).Forall validDetection ∧
    (mockDetections r t).Forall validDetection := by
  have h12 : t 1 ≤ t 2 := ht (by norm_num)
  have h23 : t 2 ≤ t 3 := ht (by norm_num)
  have h56 : t 5 ≤ t 6 := ht (by norm_num)
  have h67 : t 6 ≤ t 7 := ht (by norm_num)
  have h910 : t 9 ≤ t 10 := ht (by norm_num)
  have h1011 : t 10 ≤ t 11 := ht (by norm_num)
  obtain ⟨hr0l, hr0u⟩ := hr 0
  obtain ⟨hr1l, hr1u⟩ := hr 1
  obtain ⟨hr2l, hr2u⟩ := hr 2
  obtain ⟨hr3l, hr3u⟩ := hr 3
  obtain ⟨hr4l, hr4u⟩ := hr 4
  refine ⟨?_, ?_⟩
  · simp only [testDetections, List.Forall, validDetection]
    norm_num
    omega
  · simp only [mockDetections, List.Forall, validDetection]
    refine ⟨by linarith, by linarith, by linarith, by linarith,
      by linarith, by linarith, by linarith, by linarith,
      by linarith, by linarith, by linarith, by linarith, by omega, by omega⟩

/-- C5 witness: the validity theorem applied at the identity clock and
the constant one-half random stream. -/
theorem C5_produced_detections_valid_witness :
    (testDetections (fun k => k)).Forall validDetection ∧
    (mockDetections (fun _ => 1/2) (fun k => k)).Forall validDetection :=
  C5_produced_detections_valid (fun k => k) (fun _ => 1/2)
    (fun _ _ h => h) (fun _ => by norm_num)

/-- C1 counterexample: calling startDetection with a null stream on the
freshly mounted state reports NO error at all — in particular not
InvalidStreamError — because the code is a bare early return
(if (!stream) return).  The claim as stated, that the failure is
reported to the caller as InvalidStreamError, is therefore false at this
input.  The state is returned unchanged. -/
theorem C1_counterexample :
    startDetection none initState = (initState, none) := rfl

/-- C1 amended: a start with a null/absent stream returns immediately
without reporting any error to the caller; the session remains exactly as
it was (no state field is mutated, no timer is created). -/
theorem C1_amended (s : SessionState) :
    startDetection none s = (s, none) := rfl

/-- C2 counterexample: starting twice from the mounted state without an
intervening stop leaves TWO sampler interval timers running, while
stop-then-start leaves exactly one; the two are therefore not equivalent
and the claim that at most one sampler loop ever runs is false at this
input. -/
theorem C2_counterexample :
    ((startDetection (some 0) (startDetection (some 0) initState).1).1).activeTimers.length
        = 2 ∧
    ((startDetection (some 0)
        (stopDetection (startDetection (some 0) initState).1)).1).activeTimers.length
        = 1 := by decide

/-- C2 amended: startDetection never clears the previous interval, so a
second start without an intervening stop leaves the first timer running
alongside the new one (its handle is merely overwritten), whereas
stop-then-start first erases the old timer and leaves exactly the new
one; the two call sequences are not equivalent. -/
theorem C2_amended (s : SessionState) (st1 st2 : ℕ) :
    ((startDetection (some st2) (startDetection (some st1) s).1).1).activeTimers
      = (s.nextTimerId + 1) :: s.nextTimerId :: s.activeTimers ∧
    ((startDetection (some st2)
        (stopDetection (startDetection (some st1) s).1)).1).activeTimers
      = (s.nextTimerId + 1) :: s.activeTimers := by
  constructor
  · simp [startDetection]
  · simp [startDetection, stopDetection, List.erase_cons_head]

/-- The sampler timer of the first state is no longer running in the
second state: whatever timer id intervalRef held has been cleared. -/
def samplerTimerCleared (before after : SessionState) : Prop :=
  ∀ tid, before.intervalHandle = some tid → tid ∉ after.activeTimers

/-- A concrete running session: the mounted state after a successful
start with stream handle 3. -/
def sampleRunning : SessionState := (startDetection (some 3) initState).1

/-- C7: stopDetection, from any state whose running timers are distinct,
sets isProcessing to false (running to idle), clears the published
detections and the stream ref, nulls the interval handle, and the timer
that handle referenced is no longer among the running timers. -/
theorem C7_stop_resets (s : SessionState) (hnd : s.activeTimers.Nodup) :
    (stopDetection s).isProcessing = false ∧
    (stopDetection s).detections = [] ∧
    (stopDetection s).stream = none ∧
    (stopDetection s).intervalHandle = none ∧
    samplerTimerCleared s (stopDetection s) := by
  unfold stopDetection samplerTimerCleared
  rcases h : s.intervalHandle with _ | tid
  · simp [h]
  · refine ⟨rfl, rfl, rfl, rfl, ?_⟩
    intro tid2 h2
    injection h2 with h3
    subst h3
    exact hnd.not_mem_erase

/-- C7 witness: stopping the concrete running session resets every
field and clears its sampler timer. -/
theorem C7_stop_resets_witness :
    (stopDetection sampleRunning).isProcessing = false ∧
    (stopDetection sampleRunning).detections = [] ∧
    (stopDetection sampleRunning).stream = none ∧
    (stopDetection sampleRunning).intervalHandle = none ∧
    samplerTimerCleared sampleRunning (stopDetection sampleRunning) :=
  C7_stop_resets sampleRunning (by decide)

/-- The running session after one server-mode frame tick: one fetch is
in flight. -/
def tickOnce : SessionState :=
  processFrame DetectionMode.server (some 7) true (fun k => k) sampleRunning

/-- C3 counterexample: a second frame tick while the first server
submission is still in flight starts a SECOND submission instead of
dropping the frame, so two calls are in flight at the same instant; the
claim that at most one submission is ever in flight is false at this
input. -/
theorem C3_counterexample :
    (processFrame DetectionMode.server (some 8) true (fun k => k) tickOnce).inFlightServer
      = 2 := by decide

/-- C3 amended: processFrame performs no busy check at all: every frame
tick in server mode while processing starts one more fetch regardless of
how many are already in flight, so concurrent in-flight submissions
accumulate instead of being bounded by one. -/
theorem C3_amended (s : SessionState) (v : ℕ) (t : ℕ → ℕ)
    (hp : s.isProcessing = true) :
    (processFrame DetectionMode.server (some v) true t s).inFlightServer
      = s.inFlightServer + 1 := by
  unfold processFrame
  simp [hp]

/-- C3 witness: the amended theorem applied to the concrete running
session with one submission already in flight. -/
theorem C3_amended_witness :
    (processFrame DetectionMode.server (some 8) true (fun k => k) tickOnce).inFlightServer
      = tickOnce.inFlightServer + 1 :=
  C3_amended tickOnce 8 (fun k => k) (by decide)

/-- C4 counterexample: a server submission that fails with a non-success
HTTP response (a 500) does NOT produce a fallback batch: the code only
logs the status, so the published detections stay exactly as they were
(here the empty list), contradicting the claim that every failing
submission returns a non-empty fallback DetectionBatch. -/
theorem C4_counterexample :
    (completeServer (ServerOutcome.httpError 500) (fun _ => 0) (fun k => k)
        tickOnce).detections = tickOnce.detections ∧
    (completeServer (ServerOutcome.httpError 500) (fun _ => 0) (fun k => k)
        tickOnce).detections = [] := by decide

/-- C4 amended: only a transport error (fetch throwing, e.g. a timeout)
produces the non-empty mock fallback batch, whose timestamps are
monotonically valid, and no error reaches the caller; a non-success HTTP
response such as a 500 is merely logged and leaves the published
detections unchanged (no fallback batch). -/
theorem C4_amended (s : SessionState) (r : ℕ → ℚ) (t : ℕ → ℕ) (status : ℕ)
    (ht : Monotone t) :
    (completeServer ServerOutcome.transportError r t s).detections
      = mockDetections r t ∧
    mockDetections r t ≠ [] ∧
    (mockDetections r t).Forall
      (fun d => d.capture_ts ≤ d.recv_ts ∧ d.recv_ts ≤ d.inference_ts) ∧
    (completeServer (ServerOutcome.httpError status) r t s).detections
      = s.detections := by
  have h12 : t 1 ≤ t 2 := ht (by norm_num)
  have h23 : t 2 ≤ t 3 := ht (by norm_num)
  refine ⟨rfl, by simp [mockDetections], ?_, rfl⟩
  simp only [mockDetections, List.Forall]
  omega

/-- C4 witness: the amended theorem applied to the concrete in-flight
session, the constant-zero random stream and the identity clock. -/
theorem C4_amended_witness :
    (completeServer ServerOutcome.transportError (fun _ => 0) (fun k => k)
        tickOnce).detections = mockDetections (fun _ => 0) (fun k => k) ∧
    mockDetections (fun _ => 0) (fun k => k) ≠ [] ∧
    (mockDetections (fun _ => 0) (fun k => k)).Forall
      (fun d => d.capture_ts ≤ d.recv_ts ∧ d.recv_ts ≤ d.inference_ts) ∧
    (completeServer (ServerOutcome.httpError 500) (fun _ => 0) (fun k => k)
        tickOnce).detections = tickOnce.detections :=
  C4_amended tickOnce (fun _ => 0) (fun k => k) 500 (fun _ _ h => h)

/-- The session after a frame tick went in flight and stopDetection then
ran: idle, detections cleared, one submission still in flight. -/
def traceAfterStop : SessionState := stopDetection tickOnce

/-- A concrete detection payload carried by a late server response. -/
def lateDetection : Detection :=
  { label := "person", score := 1,
    xmin := 0, ymin := 0, xmax := 1, ymax := 1,
    frame_id := 0, capture_ts := 0, recv_ts := 0, inference_ts := 0 }

/-- C6 counterexample: along the concrete trace start, frame tick,
stop, the submission that was in flight at stop time completes with a
successful response, and its payload IS applied to the session: the
published detections change from the cleared empty list to the stale
payload.  There is no session-generation token; the claim that a late
completion is discarded is false at this input. -/
theorem C6_counterexample :
    traceAfterStop.detections = [] ∧
    (completeServer (ServerOutcome.ok (some [lateDetection])) (fun _ => 0)
        (fun k => k) traceAfterStop).detections = [lateDetection] :=
  ⟨rfl, rfl⟩

/-- C6 amended: nothing in the completion path consults the session
state or any generation token: a successful completion arriving after
stopDetection publishes its detections to the session state even though
isProcessing is false. -/
theorem C6_amended (s : SessionState) (dets : List Detection)
    (r : ℕ → ℚ) (t : ℕ → ℕ) (hp : s.isProcessing = false) :
    (completeServer (ServerOutcome.ok (some dets)) r t s).detections = dets ∧
    (completeServer (ServerOutcome.ok (some dets)) r t s).isProcessing = false := by
  refine ⟨rfl, ?_⟩
  simpa [completeServer] using hp

/-- C6 witness: the amended theorem applied to the stopped trace state
and the concrete late payload. -/
theorem C6_amended_witness :
    (completeServer (ServerOutcome.ok (some [lateDetection])) (fun _ => 0)
        (fun k => k) traceAfterStop).detections = [lateDetection] ∧
    (completeServer (ServerOutcome.ok (some [lateDetection])) (fun _ => 0)
        (fun k => k) traceAfterStop).isProcessing = false :=
  C6_amended traceAfterStop [lateDetection] (fun _ => 0) (fun k => k) (by decide)

/-- C8 counterexample: after processing two frames the session has
allocated TWO off-screen canvases (document.createElement runs inside
processFrame on every call), contradicting the claim that one drawing
surface is allocated once and reused across frames. -/
theorem C8_counterexample :
    (processFrame DetectionMode.server (some 8) true (fun k => k) tickOnce).canvasAllocs
      = 2 := by decide

/-- C8 amended: every processed frame is downsampled to 320 by 240 (the
canvas is sized 320 by 240 and the pixels dispatched to the worker carry
exactly those dimensions), but a NEW off-screen canvas is allocated on
every processFrame call rather than one being reused across frames. -/
theorem C8_amended (s : SessionState) (m : DetectionMode) (v : ℕ) (t : ℕ → ℕ)
    (hp : s.isProcessing = true) :
    (processFrame m (some v) true t s).canvasAllocs = s.canvasAllocs + 1 ∧
    (s.hasWorker = true →
      (processFrame DetectionMode.wasm (some v) true t s).workerMessages
        = s.workerMessages ++
          [{ imageData := getImageData v 320 240, width := 320, height := 240,
             timestamp := t 0, frameId := t 1 }]) := by
  constructor
  · unfold processFrame
    cases m <;> simp [hp]
    split <;> rfl
  · intro hw
    unfold processFrame
    simp [hp, hw]

/-- C8 witness: the amended theorem applied to a running wasm-mode
session processing its first frame. -/
theorem C8_amended_witness :
    (processFrame DetectionMode.wasm (some 7) true (fun k => k)
        (initWorkerEffect DetectionMode.wasm sampleRunning)).canvasAllocs
      = (initWorkerEffect DetectionMode.wasm sampleRunning).canvasAllocs + 1 ∧
    ((initWorkerEffect DetectionMode.wasm sampleRunning).hasWorker = true →
      (processFrame DetectionMode.wasm (some 7) true (fun k => k)
          (initWorkerEffect DetectionMode.wasm sampleRunning)).workerMessages
        = (initWorkerEffect DetectionMode.wasm sampleRunning).workerMessages ++
          [{ imageData := getImageData 7 320 240, width := 320, height := 240,
             timestamp := 0, frameId := 1 }]) :=
  C8_amended (initWorkerEffect DetectionMode.wasm sampleRunning)
    DetectionMode.wasm 7 (fun k => k) (by decide)

/-- C9: in wasm mode with a live worker, the message posted for a
processed frame has exactly the shape imageData, width, height,
timestamp, frameId, where imageData holds the pixels of the submitted
frame read back at the canvas dimensions 320 by 240, width and height
are those canvas dimensions, and timestamp and frameId are the two
successive Date.now() values; and the worker response handler publishes
the detections field of the response to the consumer. -/
theorem C9_worker_schema (s : SessionState) (v : ℕ) (t : ℕ → ℕ)
    (resp : WorkerResponse) (hp : s.isProcessing = true)
    (hw : s.hasWorker = true) :
    (processFrame DetectionMode.wasm (some v) true t s).workerMessages
      = s.workerMessages ++
        [{ imageData := getImageData v 320 240, width := 320, height := 240,
           timestamp := t 0, frameId := t 1 }] ∧
    (onWorkerMessage resp s).detections = resp.detections := by
  refine ⟨?_, rfl⟩
  unfold processFrame
  simp [hp, hw]

/-- C9 witness: the schema theorem applied to a concrete running
wasm-mode session and a concrete worker response. -/
theorem C9_worker_schema_witness :
    (processFrame DetectionMode.wasm (some 7) true (fun k => k)
        (initWorkerEffect DetectionMode.wasm sampleRunning)).workerMessages
      = (initWorkerEffect DetectionMode.wasm sampleRunning).workerMessages ++
        [{ imageData := getImageData 7 320 240, width := 320, height := 240,
           timestamp := 0, frameId := 1 }] ∧
    (onWorkerMessage { detections := [lateDetection], processingTime := 12 }
        (initWorkerEffect DetectionMode.wasm sampleRunning)).detections
      = [lateDetection] :=
  C9_worker_schema (initWorkerEffect DetectionMode.wasm sampleRunning)
    7 (fun k => k) { detections := [lateDetection], processingTime := 12 }
    (by decide) (by decide)

/-- C10 counterexample: along the concrete trace start, frame tick,
stop, a late successful completion sets non-empty detections while
isProcessing is false, so the claimed invariant that detections is empty
whenever isProcessing is false does not hold across all operations of
the hook. -/
theorem C10_counterexample :
    (completeServer (ServerOutcome.ok (some [lateDetection])) (fun _ => 0)
        (fun k => k) traceAfterStop).isProcessing = false ∧
    (completeServer (ServerOutcome.ok (some [lateDetection])) (fun _ => 0)
        (fun k => k) traceAfterStop).detections ≠ [] :=
  ⟨rfl, fun h => List.noConfusion h⟩

/-- C10 amended: the invariant that detections is empty whenever
isProcessing is false is preserved by the synchronous operations the
claim lists: stopDetection establishes it, the isProcessing effect
re-establishes it when not processing, and processFrame returns the
state unchanged when not processing; only a late asynchronous
completion can break it. -/
theorem C10_amended (s : SessionState) (m : DetectionMode) (v : Option ℕ)
    (c : Bool) (t : ℕ → ℕ) (hp : s.isProcessing = false) :
    ((stopDetection s).isProcessing = false ∧ (stopDetection s).detections = []) ∧
    (processingEffect t s).detections = [] ∧
    processFrame m v c t s = s := by
  refine ⟨?_, ?_, ?_⟩
  · unfold stopDetection
    rcases s.intervalHandle <;> exact ⟨rfl, rfl⟩
  · unfold processingEffect
    simp [hp]
  · unfold processFrame
    rcases v with _ | v
    · rfl
    · simp [hp]

/-- C10 witness: the preservation theorem applied to the concrete
stopped trace state. -/
theorem C10_amended_witness :
    ((stopDetection traceAfterStop).isProcessing = false ∧
      (stopDetection traceAfterStop).detections = []) ∧
    (processingEffect (fun k => k) traceAfterStop).detections = [] ∧
    processFrame DetectionMode.server (some 9) true (fun k => k) traceAfterStop
      = traceAfterStop :=
  C10_amended traceAfterStop DetectionMode.server (some 9) true (fun k => k)
    (by decide)
